import Mathlib

/-!
Verification of the p1r4t3 WebGPU boat renderer.

The definitions below are shallow embeddings of the TypeScript source:
the orbit-camera input handlers, the gl-matrix model-matrix computation,
the box geometry builder, the brightness adjustment, the uniform-buffer
layout, the depth-target resize path, the teardown path, and the tunnel
URL route handler.  Scalars of the source (JS numbers) are modelled as
real numbers.
-/

namespace P1r4t3

/-! ## Orbit camera controller (the `cameraState` ref and its handlers) -/

/-- The mutable camera state: `{ theta, phi, radius, isDragging, lastX,
lastY, lastPinchDist }`. -/
structure CameraState where
  theta : ℝ
  phi : ℝ
  radius : ℝ
  isDragging : Bool
  lastX : ℝ
  lastY : ℝ
  lastPinchDist : ℝ

/-- `Math.max(0.1, Math.min(Math.PI - 0.1, phi))`. -/
noncomputable def clampPhi (x : ℝ) : ℝ := max 0.1 (min (Real.pi - 0.1) x)

/-- `Math.max(2, Math.min(50, radius))`. -/
noncomputable def clampRadius (x : ℝ) : ℝ := max 2 (min 50 x)

/-- `handleMouseDown`. -/
def handleMouseDown (s : CameraState) (clientX clientY : ℝ) : CameraState :=
  { s with isDragging := true, lastX := clientX, lastY := clientY }

/-- `handleMouseUp`. -/
def handleMouseUp (s : CameraState) : CameraState :=
  { s with isDragging := false }

/-- `handleMouseMove`: early-returns unless dragging, otherwise rotates by
the pointer delta times 0.01 and clamps `phi`. -/
noncomputable def handleMouseMove (s : CameraState) (clientX clientY : ℝ) :
    CameraState :=
  if s.isDragging then
    { s with
      theta := s.theta - (clientX - s.lastX) * 0.01
      phi := clampPhi (s.phi - (clientY - s.lastY) * 0.01)
      lastX := clientX
      lastY := clientY }
  else s

/-- `handleWheel`: zooms by `deltaY * 0.01` and clamps `radius`. -/
noncomputable def handleWheel (s : CameraState) (deltaY : ℝ) : CameraState :=
  { s with radius := clampRadius (s.radius + deltaY * 0.01) }

/-- `Math.hypot`. -/
noncomputable def hypot (dx dy : ℝ) : ℝ := Real.sqrt (dx ^ 2 + dy ^ 2)

/-- `handleTouchStart`: one touch starts a drag, two touches record the
pinch distance, anything else is ignored. -/
noncomputable def handleTouchStart (s : CameraState) (touches : List (ℝ × ℝ)) :
    CameraState :=
  match touches with
  | [t0] => { s with isDragging := true, lastX := t0.1, lastY := t0.2 }
  | [t0, t1] =>
      { s with
        isDragging := false
        lastPinchDist := hypot (t0.1 - t1.1) (t0.2 - t1.2) }
  | _ => s

/-- `handleTouchMove`: one dragging touch rotates (clamping `phi`), two
touches pinch-zoom (clamping `radius`). -/
noncomputable def handleTouchMove (s : CameraState) (touches : List (ℝ × ℝ)) :
    CameraState :=
  match touches with
  | [t] =>
      if s.isDragging then
        { s with
          theta := s.theta - (t.1 - s.lastX) * 0.01
          phi := clampPhi (s.phi - (t.2 - s.lastY) * 0.01)
          lastX := t.1
          lastY := t.2 }
      else s
  | [t0, t1] =>
      let dist := hypot (t0.1 - t1.1) (t0.2 - t1.2)
      { s with
        radius := clampRadius (s.radius + (s.lastPinchDist - dist) * 0.05)
        lastPinchDist := dist }
  | _ => s

/-- `handleTouchEnd`. -/
def handleTouchEnd (s : CameraState) : CameraState :=
  { s with isDragging := false }

/-- One pointer/touch/wheel input event as dispatched to the handlers. -/
inductive InputEvent
  | mouseDown (clientX clientY : ℝ)
  | mouseUp
  | mouseMove (clientX clientY : ℝ)
  | wheel (deltaY : ℝ)
  | touchStart (touches : List (ℝ × ℝ))
  | touchMove (touches : List (ℝ × ℝ))
  | touchEnd

/-- Dispatch one event to its handler. -/
noncomputable def applyEvent (s : CameraState) : InputEvent → CameraState
  | .mouseDown x y => handleMouseDown s x y
  | .mouseUp => handleMouseUp s
  | .mouseMove x y => handleMouseMove s x y
  | .wheel dy => handleWheel s dy
  | .touchStart ts => handleTouchStart s ts
  | .touchMove ts => handleTouchMove s ts
  | .touchEnd => handleTouchEnd s

/-- Apply a sequence of input events in order. -/
noncomputable def applyEvents (s : CameraState) (evs : List InputEvent) :
    CameraState :=
  evs.foldl applyEvent s

/-- The spec's camera invariant: `phi ∈ [0.1, π − 0.1]` and
`radius ∈ [2, 50]`. -/
def cameraInv (s : CameraState) : Prop :=
  0.1 ≤ s.phi ∧ s.phi ≤ Real.pi - 0.1 ∧ 2 ≤ s.radius ∧ s.radius ≤ 50

lemma clampPhi_bounds (x : ℝ) :
    0.1 ≤ clampPhi x ∧ clampPhi x ≤ Real.pi - 0.1 := by
  have hpi : (3 : ℝ) < Real.pi := Real.pi_gt_three
  constructor
  · exact le_max_left _ _
  · have h1 : (0.1 : ℝ) ≤ Real.pi - 0.1 := by linarith
    have h2 : min (Real.pi - 0.1) x ≤ Real.pi - 0.1 := min_le_left _ _
    exact max_le h1 h2

lemma clampRadius_bounds (x : ℝ) :
    2 ≤ clampRadius x ∧ clampRadius x ≤ 50 := by
  constructor
  · exact le_max_left _ _
  · have h1 : (2 : ℝ) ≤ 50 := by norm_num
    have h2 : min (50 : ℝ) x ≤ 50 := min_le_left _ _
    exact max_le h1 h2

lemma clampPhi_of_mem {x : ℝ} (h1 : 0.1 ≤ x) (h2 : x ≤ Real.pi - 0.1) :
    clampPhi x = x := by
  unfold clampPhi
  rw [min_eq_right h2, max_eq_right h1]

lemma clampRadius_of_mem {x : ℝ} (h1 : 2 ≤ x) (h2 : x ≤ 50) :
    clampRadius x = x := by
  unfold clampRadius
  rw [min_eq_right h2, max_eq_right h1]

lemma clampPhi_idem (x : ℝ) : clampPhi (clampPhi x) = clampPhi x :=
  clampPhi_of_mem (clampPhi_bounds x).1 (clampPhi_bounds x).2

lemma clampRadius_idem (x : ℝ) : clampRadius (clampRadius x) = clampRadius x :=
  clampRadius_of_mem (clampRadius_bounds x).1 (clampRadius_bounds x).2

lemma cameraInv_applyEvent {s : CameraState} (h : cameraInv s)
    (e : InputEvent) : cameraInv (applyEvent s e) := by
  obtain ⟨h1, h2, h3, h4⟩ := h
  cases e with
  | mouseDown x y => exact ⟨h1, h2, h3, h4⟩
  | mouseUp => exact ⟨h1, h2, h3, h4⟩
  | mouseMove x y =>
      unfold applyEvent handleMouseMove
      by_cases hd : s.isDragging
      · simp only [hd, if_true]
        exact ⟨(clampPhi_bounds _).1, (clampPhi_bounds _).2, h3, h4⟩
      · simp only [hd, if_false]
        exact ⟨h1, h2, h3, h4⟩
  | wheel dy =>
      exact ⟨h1, h2, (clampRadius_bounds _).1, (clampRadius_bounds _).2⟩
  | touchStart ts =>
      unfold applyEvent handleTouchStart
      match ts with
      | [] => exact ⟨h1, h2, h3, h4⟩
      | [t0] => exact ⟨h1, h2, h3, h4⟩
      | [t0, t1] => exact ⟨h1, h2, h3, h4⟩
      | t0 :: t1 :: t2 :: rest => exact ⟨h1, h2, h3, h4⟩
  | touchMove ts =>
      unfold applyEvent handleTouchMove
      match ts with
      | [] => exact ⟨h1, h2, h3, h4⟩
      | [t] =>
          by_cases hd : s.isDragging
          · simp only [hd, if_true]
            exact ⟨(clampPhi_bounds _).1, (clampPhi_bounds _).2, h3, h4⟩
          · simp only [hd, if_false]
            exact ⟨h1, h2, h3, h4⟩
      | [t0, t1] =>
          exact ⟨h1, h2, (clampRadius_bounds _).1, (clampRadius_bounds _).2⟩
      | t0 :: t1 :: t2 :: rest => exact ⟨h1, h2, h3, h4⟩
  | touchEnd => exact ⟨h1, h2, h3, h4⟩

lemma cameraInv_applyEvents {s : CameraState} (h : cameraInv s)
    (evs : List InputEvent) : cameraInv (applyEvents s evs) := by
  induction evs generalizing s with
  | nil => exact h
  | cons e rest ih => exact ih (cameraInv_applyEvent h e)

/-- C1: any sequence of drag/wheel/pinch events preserves the camera
invariant `phi ∈ [0.1, π − 0.1]`, `radius ∈ [2, 50]`, and both clamps are
idempotent (re-clamping an already-clamped value is a no-op). -/
theorem camera_invariant_preserved (s : CameraState) (evs : List InputEvent)
    (h : cameraInv s) :
    cameraInv (applyEvents s evs) ∧
    (∀ x : ℝ, clampPhi (clampPhi x) = clampPhi x) ∧
    (∀ x : ℝ, clampRadius (clampRadius x) = clampRadius x) :=
  ⟨cameraInv_applyEvents h evs, clampPhi_idem, clampRadius_idem⟩

/-- Witness for C1 at a concrete initial state and event sequence. -/
theorem camera_invariant_preserved_witness :
    cameraInv ⟨0, 1, 12, false, 0, 0, 0⟩ ∧
    cameraInv (applyEvents ⟨0, 1, 12, false, 0, 0, 0⟩
      [.wheel 1000, .mouseDown 3 4, .mouseMove 103 4, .touchEnd]) := by
  have hpi : (3 : ℝ) < Real.pi := Real.pi_gt_three
  have hinv : cameraInv ⟨0, 1, 12, false, 0, 0, 0⟩ := by
    refine ⟨by norm_num, by simp only; linarith, by norm_num, by norm_num⟩
  exact ⟨hinv,
    (camera_invariant_preserved ⟨0, 1, 12, false, 0, 0, 0⟩
      [.wheel 1000, .mouseDown 3 4, .mouseMove 103 4, .touchEnd] hinv).1⟩

/-! ## Geometry builder (`createBox`) and brightness (`adjustBrightness`) -/

/-- One interleaved vertex record: position, color, normal — the nine
floats of one row of `createBox`'s output. -/
structure Vertex where
  px : ℝ
  py : ℝ
  pz : ℝ
  cr : ℝ
  cg : ℝ
  cb : ℝ
  nx : ℝ
  ny : ℝ
  nz : ℝ

/-- `createBox(x, y, z, w, h, d, r, g, b)`: the 36 interleaved vertices of
an axis-aligned box, six faces of two triangles each, transcribed row by
row (the source's `x1 = x − w/2` etc. are inlined). -/
noncomputable def createBox (x y z w h d r g b : ℝ) : List Vertex :=
  [⟨x - w/2, y - h/2, z + d/2, r, g, b, 0, 0, 1⟩,
   ⟨x + w/2, y - h/2, z + d/2, r, g, b, 0, 0, 1⟩,
   ⟨x + w/2, y + h/2, z + d/2, r, g, b, 0, 0, 1⟩,
   ⟨x - w/2, y - h/2, z + d/2, r, g, b, 0, 0, 1⟩,
   ⟨x + w/2, y + h/2, z + d/2, r, g, b, 0, 0, 1⟩,
   ⟨x - w/2, y + h/2, z + d/2, r, g, b, 0, 0, 1⟩,
   ⟨x + w/2, y - h/2, z - d/2, r, g, b, 0, 0, -1⟩,
   ⟨x - w/2, y - h/2, z - d/2, r, g, b, 0, 0, -1⟩,
   ⟨x - w/2, y + h/2, z - d/2, r, g, b, 0, 0, -1⟩,
   ⟨x + w/2, y - h/2, z - d/2, r, g, b, 0, 0, -1⟩,
   ⟨x - w/2, y + h/2, z - d/2, r, g, b, 0, 0, -1⟩,
   ⟨x + w/2, y + h/2, z - d/2, r, g, b, 0, 0, -1⟩,
   ⟨x - w/2, y + h/2, z + d/2, r, g, b, 0, 1, 0⟩,
   ⟨x + w/2, y + h/2, z + d/2, r, g, b, 0, 1, 0⟩,
   ⟨x + w/2, y + h/2, z - d/2, r, g, b, 0, 1, 0⟩,
   ⟨x - w/2, y + h/2, z + d/2, r, g, b, 0, 1, 0⟩,
   ⟨x + w/2, y + h/2, z - d/2, r, g, b, 0, 1, 0⟩,
   ⟨x - w/2, y + h/2, z - d/2, r, g, b, 0, 1, 0⟩,
   ⟨x - w/2, y - h/2, z - d/2, r, g, b, 0, -1, 0⟩,
   ⟨x + w/2, y - h/2, z - d/2, r, g, b, 0, -1, 0⟩,
   ⟨x + w/2, y - h/2, z + d/2, r, g, b, 0, -1, 0⟩,
   ⟨x - w/2, y - h/2, z - d/2, r, g, b, 0, -1, 0⟩,
   ⟨x + w/2, y - h/2, z + d/2, r, g, b, 0, -1, 0⟩,
   ⟨x - w/2, y - h/2, z + d/2, r, g, b, 0, -1, 0⟩,
   ⟨x + w/2, y - h/2, z + d/2, r, g, b, 1, 0, 0⟩,
   ⟨x + w/2, y - h/2, z - d/2, r, g, b, 1, 0, 0⟩,
   ⟨x + w/2, y + h/2, z - d/2, r, g, b, 1, 0, 0⟩,
   ⟨x + w/2, y - h/2, z + d/2, r, g, b, 1, 0, 0⟩,
   ⟨x + w/2, y + h/2, z - d/2, r, g, b, 1, 0, 0⟩,
   ⟨x + w/2, y + h/2, z + d/2, r, g, b, 1, 0, 0⟩,
   ⟨x - w/2, y - h/2, z - d/2, r, g, b, -1, 0, 0⟩,
   ⟨x - w/2, y - h/2, z + d/2, r, g, b, -1, 0, 0⟩,
   ⟨x - w/2, y + h/2, z + d/2, r, g, b, -1, 0, 0⟩,
   ⟨x - w/2, y - h/2, z - d/2, r, g, b, -1, 0, 0⟩,
   ⟨x - w/2, y + h/2, z + d/2, r, g, b, -1, 0, 0⟩,
   ⟨x - w/2, y + h/2, z - d/2, r, g, b, -1, 0, 0⟩]

/-- The six outward axis-aligned unit normals ±X, ±Y, ±Z. -/
def axisNormals : List (ℝ × ℝ × ℝ) :=
  [(1, 0, 0), (-1, 0, 0), (0, 1, 0), (0, -1, 0), (0, 0, 1), (0, 0, -1)]

/-- C3: for every box spec, `createBox` yields exactly 36 vertices, each
carrying the supplied color unchanged and a unit normal equal to one of
±X, ±Y, ±Z. -/
theorem createBox_spec (x y z w h d r g b : ℝ) :
    (createBox x y z w h d r g b).length = 36 ∧
    ∀ v ∈ createBox x y z w h d r g b,
      (v.cr = r ∧ v.cg = g ∧ v.cb = b) ∧
      (v.nx, v.ny, v.nz) ∈ axisNormals ∧
      v.nx ^ 2 + v.ny ^ 2 + v.nz ^ 2 = 1 := by
  refine ⟨rfl, ?_⟩
  intro v hv
  fin_cases hv <;>
    exact ⟨⟨rfl, rfl, rfl⟩, by norm_num [axisNormals], by norm_num⟩

/-- Witness for C3 at a concrete box spec and its first vertex. -/
theorem createBox_spec_witness :
    (createBox 0 0 0 2 2 2 1 0 0).length = 36 ∧
    (Vertex.mk (0 - 2/2) (0 - 2/2) (0 + 2/2) 1 0 0 0 0 1).cr = 1 := by
  have hm : Vertex.mk (0 - 2/2) (0 - 2/2) (0 + 2/2) 1 0 0 0 0 1 ∈
      createBox 0 0 0 2 2 2 1 0 0 := by
    unfold createBox
    exact List.mem_cons_self _ _
  exact ⟨(createBox_spec 0 0 0 2 2 2 1 0 0).1,
    ((createBox_spec 0 0 0 2 2 2 1 0 0).2 _ hm).1.1⟩

/-- `adjustBrightness(color, factor)`: each channel becomes
`Math.min(1, channel * factor)`. -/
noncomputable def adjustBrightness (color : ℝ × ℝ × ℝ) (factor : ℝ) :
    ℝ × ℝ × ℝ :=
  (min 1 (color.1 * factor), min 1 (color.2.1 * factor),
    min 1 (color.2.2 * factor))

/-- C7: the brightness adjustment yields `min(1, c × b)` on each channel,
and each output channel depends only on the matching input channel. -/
theorem adjustBrightness_channels (c : ℝ × ℝ × ℝ) (b : ℝ) :
    (adjustBrightness c b).1 = min 1 (c.1 * b) ∧
    (adjustBrightness c b).2.1 = min 1 (c.2.1 * b) ∧
    (adjustBrightness c b).2.2 = min 1 (c.2.2 * b) ∧
    (∀ c' : ℝ × ℝ × ℝ, c'.1 = c.1 →
      (adjustBrightness c' b).1 = (adjustBrightness c b).1) ∧
    (∀ c' : ℝ × ℝ × ℝ, c'.2.1 = c.2.1 →
      (adjustBrightness c' b).2.1 = (adjustBrightness c b).2.1) ∧
    (∀ c' : ℝ × ℝ × ℝ, c'.2.2 = c.2.2 →
      (adjustBrightness c' b).2.2 = (adjustBrightness c b).2.2) := by
  refine ⟨rfl, rfl, rfl, ?_, ?_, ?_⟩ <;>
    · intro c' hc
      unfold adjustBrightness
      rw [hc]

/-- Witness for C7 at concrete channel values. -/
theorem adjustBrightness_channels_witness :
    (adjustBrightness (0.2, 0.4, 0.8) 0.35).1 = min 1 (0.2 * 0.35) ∧
    (adjustBrightness (0.2, 0.9, 0.8) 0.35).2.2 =
      (adjustBrightness (0.2, 0.4, 0.8) 0.35).2.2 := by
  refine ⟨(adjustBrightness_channels (0.2, 0.4, 0.8) 0.35).1, ?_⟩
  exact (adjustBrightness_channels (0.2, 0.4, 0.8) 0.35).2.2.2.2.2
    (0.2, 0.9, 0.8) rfl

/-! ## Model matrix of the render loop (gl-matrix, column-vector
convention: `translate`/`rotateZ`/`rotateX` post-multiply) -/

/-- `mat4.translate` by `[vx, vy, vz]` applied to the identity. -/
noncomputable def mat4Translate (vx vy vz : ℝ) : Matrix (Fin 4) (Fin 4) ℝ :=
  !![1, 0, 0, vx; 0, 1, 0, vy; 0, 0, 1, vz; 0, 0, 0, 1]

/-- `mat4.rotateZ` rotation matrix. -/
noncomputable def mat4RotateZ (a : ℝ) : Matrix (Fin 4) (Fin 4) ℝ :=
  !![Real.cos a, -Real.sin a, 0, 0;
     Real.sin a, Real.cos a, 0, 0;
     0, 0, 1, 0;
     0, 0, 0, 1]

/-- `mat4.rotateX` rotation matrix. -/
noncomputable def mat4RotateX (a : ℝ) : Matrix (Fin 4) (Fin 4) ℝ :=
  !![1, 0, 0, 0;
     0, Real.cos a, -Real.sin a, 0;
     0, Real.sin a, Real.cos a, 0;
     0, 0, 0, 1]

/-- The render loop's model matrix at elapsed seconds `t`:
`translate [0, bobY, 0]`, then `rotateZ rockZ`, then `rotateX pitchX`,
with `bobY = sin(t·2)·0.2`, `rockZ = sin(t·1.5)·0.05`,
`pitchX = cos(t·1.2)·0.05`. -/
noncomputable def modelMatrix (t : ℝ) : Matrix (Fin 4) (Fin 4) ℝ :=
  mat4Translate 0 (Real.sin (t * 2) * 0.2) 0 *
    mat4RotateZ (Real.sin (t * 1.5) * 0.05) *
    mat4RotateX (Real.cos (t * 1.2) * 0.05)

lemma mat4Translate_zero : mat4Translate 0 0 0 = 1 := by
  unfold mat4Translate
  ext i j
  fin_cases i <;> fin_cases j <;> simp [Matrix.one_apply, Matrix.vecHead, Matrix.vecTail]

lemma mat4RotateZ_zero : mat4RotateZ 0 = 1 := by
  unfold mat4RotateZ
  ext i j
  fin_cases i <;> fin_cases j <;> simp [Matrix.one_apply, Matrix.vecHead, Matrix.vecTail]

lemma modelMatrix_zero_eq : modelMatrix 0 = mat4RotateX 0.05 := by
  unfold modelMatrix
  rw [show (0 : ℝ) * 2 = 0 by ring, show (0 : ℝ) * 1.5 = 0 by ring,
    show (0 : ℝ) * 1.2 = 0 by ring, Real.sin_zero, Real.cos_zero,
    zero_mul, zero_mul, one_mul, mat4Translate_zero, mat4RotateZ_zero,
    one_mul, one_mul]

/-- C2 counterexample: at `t = 0` the model matrix is NOT the identity —
the pitch term `cos(0·1.2)·0.05 = 0.05` does not vanish. -/
theorem modelMatrix_zero_ne_one : modelMatrix 0 ≠ 1 := by
  rw [modelMatrix_zero_eq]
  intro hEq
  have h2 := congrFun (congrFun hEq 2) 1
  have hsin : 0 < Real.sin 0.05 :=
    Real.sin_pos_of_pos_of_lt_pi (by norm_num)
      (by linarith [Real.pi_gt_three])
  simp [mat4RotateX, Matrix.one_apply] at h2
  linarith [h2]

/-- C2 amended: at `t = 0` the bob and roll terms vanish but the pitch
term is `cos 0 · 0.05 = 0.05`, so the model matrix equals the rotation
about X by 0.05 radians (not the identity). -/
theorem modelMatrix_zero_pitch :
    modelMatrix 0 = mat4RotateX 0.05 ∧
    Real.sin (0 * 2) * 0.2 = 0 ∧
    Real.sin (0 * 1.5) * 0.05 = 0 ∧
    Real.cos (0 * 1.2) * 0.05 = 0.05 := by
  refine ⟨modelMatrix_zero_eq, ?_, ?_, ?_⟩ <;>
    simp [show (0 : ℝ) * 2 = 0 by ring, show (0 : ℝ) * 1.5 = 0 by ring,
      show (0 : ℝ) * 1.2 = 0 by ring]

/-! ## Uniform block layout -/

/-- Lit variant (`part_001`): `const uniformBufferSize = 64 + 64 + 16`. -/
def uniformBufferSizeLit : ℕ := 64 + 64 + 16

/-- Multi-viewport variant (`BoatCanvas.tsx`):
`const uniformBufferSize = 64 + 16`. -/
def uniformBufferSizeMV : ℕ := 64 + 16

/-- Lit variant per-frame field writes into the staging `Float32Array`
as `(byteOffset, byteLength)`: MVP at float 0, normal matrix at float 16,
light direction at float 32 (`uniformData.set` calls, 4 bytes/float). -/
def litFieldWrites : List (ℕ × ℕ) := [(4 * 0, 4 * 16), (4 * 16, 4 * 16), (4 * 32, 4 * 3)]

/-- The lit variant's single `writeBuffer(uniformBuffer, 0, uniformData)`
covering the whole block. -/
def litBufferWrite : ℕ × ℕ := (0, uniformBufferSizeLit)

/-- Byte offsets declared by the lit WGSL `Uniforms` struct: mat4x4 at 0,
mat4x4 at 64, vec3 at 128. -/
def litShaderOffsets : List ℕ := [0, 64, 128]

/-- Multi-viewport per-draw writes: `writeBuffer(uniformBuffer, 0, mvp)`
(64 bytes) and `writeBuffer(uniformBuffer, 64, color)` (16 bytes). -/
def mvWrites : List (ℕ × ℕ) := [(0, 64), (64, 16)]

/-- Byte offsets declared by the multi-viewport WGSL `Uniforms` struct:
mat4x4 at 0, vec4 at 64. -/
def mvShaderOffsets : List ℕ := [0, 64]

/-- C4: the uniform block is 144 bytes (64 + 64 + 16) for the lit variant
and 80 bytes (64 + 16) for the multi-viewport variant, every write lands
at the declared field offsets, and every write stays inside the block. -/
theorem uniform_block_layout :
    uniformBufferSizeLit = 144 ∧
    uniformBufferSizeMV = 80 ∧
    litFieldWrites.map Prod.fst = litShaderOffsets ∧
    (litFieldWrites.all fun p => decide (p.1 + p.2 ≤ uniformBufferSizeLit)) = true ∧
    litBufferWrite.1 + litBufferWrite.2 ≤ uniformBufferSizeLit ∧
    mvWrites.map Prod.fst = mvShaderOffsets ∧
    (mvWrites.all fun p => decide (p.1 + p.2 ≤ uniformBufferSizeMV)) = true := by
  decide

/-- C5: a drag-move of `(dx = 100, dy = 0)` while dragging decreases
`theta` by exactly `100 × 0.01 = 1` radian and leaves `phi` unchanged,
provided `phi` is already inside its clamp range. -/
theorem drag_move_dx100 (s : CameraState) (hd : s.isDragging = true)
    (h1 : 0.1 ≤ s.phi) (h2 : s.phi ≤ Real.pi - 0.1) :
    (handleMouseMove s (s.lastX + 100) s.lastY).theta = s.theta - 1 ∧
    (handleMouseMove s (s.lastX + 100) s.lastY).phi = s.phi := by
  unfold handleMouseMove
  rw [hd]
  simp only [if_true]
  constructor
  · norm_num
  · have : s.phi - (s.lastY - s.lastY) * 0.01 = s.phi := by ring
    rw [this, clampPhi_of_mem h1 h2]

/-- Witness for C5 at a concrete dragging state. -/
theorem drag_move_dx100_witness :
    (handleMouseMove ⟨2, 1, 12, true, 5, 7, 0⟩ (5 + 100) 7).theta = 2 - 1 ∧
    (handleMouseMove ⟨2, 1, 12, true, 5, 7, 0⟩ (5 + 100) 7).phi = 1 := by
  have hpi : (3 : ℝ) < Real.pi := Real.pi_gt_three
  exact drag_move_dx100 ⟨2, 1, 12, true, 5, 7, 0⟩ rfl (by norm_num)
    (by simp only; linarith)

/-- C6: a wheel event with `deltaY = 1000` moves radius 12 to 22 and
clamps radius 45 to the upper bound 50. -/
theorem wheel_deltaY1000 :
    (handleWheel ⟨0, 1, 12, false, 0, 0, 0⟩ 1000).radius = 22 ∧
    (handleWheel ⟨0, 1, 45, false, 0, 0, 0⟩ 1000).radius = 50 := by
  constructor
  · show clampRadius (12 + 1000 * 0.01) = 22
    rw [show (12 : ℝ) + 1000 * 0.01 = 22 by norm_num]
    exact clampRadius_of_mem (by norm_num) (by norm_num)
  · show clampRadius (45 + 1000 * 0.01) = 50
    unfold clampRadius
    rw [show (45 : ℝ) + 1000 * 0.01 = 55 by norm_num]
    rw [min_eq_left (by norm_num), max_eq_right (by norm_num)]

/-! ## Depth-target lifecycle (`resizeDepth` and the frame loop's
resize check in `BoatCanvas.tsx`) -/

/-- A GPU resource event: destruction or creation of a depth texture of
the given pixel dimensions. -/
inductive GpuAction
  | destroyTex (dims : ℕ × ℕ)
  | createTex (dims : ℕ × ℕ)
deriving DecidableEq

/-- The renderer's canvas/depth-texture state: canvas pixel size, the
current depth texture's size (if one exists), and the log of resource
events so far. -/
structure RenderSurface where
  width : ℕ
  height : ℕ
  depthDims : Option (ℕ × ℕ)
  log : List GpuAction
deriving DecidableEq

/-- `resizeDepth`: `if (depthTexture) depthTexture.destroy()` and then
`device.createTexture` sized `[canvas.width, canvas.height]`. -/
def resizeDepth (s : RenderSurface) : RenderSurface :=
  { s with
    depthDims := some (s.width, s.height)
    log := s.log ++
      (match s.depthDims with
        | some d => [GpuAction.destroyTex d]
        | none => []) ++
      [GpuAction.createTex (s.width, s.height)] }

/-- The frame loop's resize check: if the canvas pixel size differs from
the client size, adopt the client size and call `resizeDepth`. -/
def checkResize (s : RenderSurface) (clientW clientH : ℕ) : RenderSurface :=
  if s.width ≠ clientW ∨ s.height ≠ clientH then
    resizeDepth { s with width := clientW, height := clientH }
  else s

/-- C8: when the dimensions change the depth target is recreated, with
the prior target destroyed before the new one is created; a second
resize call with the same dimensions is a no-op (no churn, identical
depth-target dimensions). -/
theorem resize_depth_lifecycle (s : RenderSurface) (cw ch : ℕ) :
    (∀ d, s.depthDims = some d →
      (resizeDepth s).log =
        s.log ++ [GpuAction.destroyTex d,
          GpuAction.createTex (s.width, s.height)]) ∧
    checkResize (checkResize s cw ch) cw ch = checkResize s cw ch ∧
    ((s.width ≠ cw ∨ s.height ≠ ch) →
      (checkResize s cw ch).depthDims = some (cw, ch)) := by
  refine ⟨?_, ?_, ?_⟩
  · intro d hd
    unfold resizeDepth
    rw [hd]
    simp
  · unfold checkResize
    by_cases hc : s.width ≠ cw ∨ s.height ≠ ch
    · simp only [hc, if_true]
      have hw : (resizeDepth { s with width := cw, height := ch }).width = cw := rfl
      have hh : (resizeDepth { s with width := cw, height := ch }).height = ch := rfl
      simp [hw, hh]
    · simp only [hc, if_false]
  · intro hc
    unfold checkResize
    simp only [hc, if_true]
    rfl

/-- Witness for C8 at a concrete surface and a genuine size change. -/
theorem resize_depth_lifecycle_witness :
    (resizeDepth ⟨800, 600, some (800, 600), []⟩).log =
      [GpuAction.destroyTex (800, 600), GpuAction.createTex (800, 600)] ∧
    checkResize (checkResize ⟨800, 600, some (800, 600), []⟩ 1024 768)
      1024 768 = checkResize ⟨800, 600, some (800, 600), []⟩ 1024 768 ∧
    (checkResize ⟨800, 600, some (800, 600), []⟩ 1024 768).depthDims =
      some (1024, 768) := by
  have h := resize_depth_lifecycle ⟨800, 600, some (800, 600), []⟩ 1024 768
  exact ⟨h.1 (800, 600) rfl, h.2.1, h.2.2 (by decide)⟩

/-! ## Frame-loop teardown (the `useEffect` cleanup functions) -/

/-- A running renderer session: whether an animation-frame request is
pending, how many frame ticks have run, which input listeners are
attached, and which GPU resources are alive. -/
structure RendererSession where
  rafPending : Bool
  frames : ℕ
  listeners : List String
  aliveResources : List String
deriving DecidableEq

/-- One host animation-frame tick: the `render` callback runs (and
re-requests itself) only while a request is pending. -/
def tick (s : RendererSession) : RendererSession :=
  if s.rafPending then { s with frames := s.frames + 1 } else s

/-- The `useEffect` cleanup of the renderer: `cancelAnimationFrame` on
the pending request and `removeEventListener` for every input listener.
No `destroy()` call is made on any buffer or texture, so the alive
resource set is untouched. -/
def cleanup (s : RendererSession) : RendererSession :=
  { s with rafPending := false, listeners := [] }

/-- The GPU resources the lit renderer owns while running. -/
def ownedResources : List String :=
  ["vertexBuffer", "uniformBuffer", "depthTexture", "pipeline", "bindGroup"]

/-- The session right after setup: frame requested, all listeners
attached, all GPU resources alive. -/
def initSession : RendererSession :=
  ⟨true, 0,
    ["mousedown", "mouseup", "mousemove", "wheel", "touchstart",
      "touchmove", "touchend"],
    ownedResources⟩

/-- C9 counterexample: after cleanup no further tick runs, but the owned
GPU resources are all still alive — the cleanup never destroys them, so
the claim that teardown releases all owned GPU resources is false. -/
theorem cleanup_keeps_resources_alive :
    (tick (cleanup initSession)).frames = 0 ∧
    (cleanup initSession).aliveResources = ownedResources ∧
    ownedResources ≠ [] := by
  decide

lemma tick_cleanup_fixed (s : RendererSession) :
    tick (cleanup s) = cleanup s := by
  unfold tick cleanup
  simp

/-- C9 amended: teardown cancels the pending frame request (so no number
of subsequent host ticks ever executes another frame) and removes the
input listeners, but it releases no GPU resource: buffers, textures,
pipeline and bind group all stay alive. -/
theorem cleanup_cancels_frames (s : RendererSession) :
    (cleanup s).rafPending = false ∧
    (∀ n : ℕ, (tick^[n] (cleanup s)).frames = s.frames) ∧
    (cleanup s).listeners = [] ∧
    (cleanup s).aliveResources = s.aliveResources := by
  refine ⟨rfl, ?_, rfl, rfl⟩
  intro n
  have hfix : tick^[n] (cleanup s) = cleanup s :=
    Function.iterate_fixed (tick_cleanup_fixed s) n
  rw [hfix]
  rfl

/-! ## Tunnel URL route handler (`handler.GET`) -/

/-- The `GET` handler of the tunnel route:
`Response.json({ url: Deno.env.get("TUNNEL_URL") || null })`, with the
environment variable modelled as `Option String` (`||` maps the empty
string to `null`). -/
def tunnelHandlerGET (env : Option String) : Option String :=
  match env with
  | none => none
  | some u => if u = "" then none else some u

/-- C10: the returned `url` field is `null` exactly when `TUNNEL_URL` is
unset or empty, and otherwise equals the variable's value; the handler
is a total function of the environment (it never throws). -/
theorem tunnel_handler_url (env : Option String) :
    (tunnelHandlerGET env = none ↔ env = none ∨ env = some "") ∧
    (∀ u : String, u ≠ "" → env = some u → tunnelHandlerGET env = some u) := by
  constructor
  · cases env with
    | none => simp [tunnelHandlerGET]
    | some u =>
        by_cases hu : u = "" <;> simp [tunnelHandlerGET, hu]
  · intro u hu he
    subst he
    simp [tunnelHandlerGET, hu]

/-- Witness for C10 with the variable set to a nonempty URL. -/
theorem tunnel_handler_url_witness :
    tunnelHandlerGET (some "https://example.loca.lt") =
      some "https://example.loca.lt" :=
  (tunnel_handler_url (some "https://example.loca.lt")).2
    "https://example.loca.lt" (by decide) rfl

end P1r4t3
